import Mathlib

/-!
# Verification of the IndeterminateBeam core against its specification

This file gives a shallow embedding, over `ℚ`, of the parts of the
IndeterminateBeam repository that the claims C1..C10 are about:

* `src/indeterminatebeam/loading.py` — the load-class hierarchy
  (`PointTorque`, `PointLoad`, `UDL`, `TrapezoidalLoad`, `DistributedLoad`),
  whose symbolic load expressions are finite sums of sympy
  `SingularityFunction(x, a, n)` terms (embedded as `List SFTerm`) or
  sympy polynomials in `x` (embedded as `QPoly`, a coefficient list);
* `src/indeterminatebeam/indeterminatebeam.py` — the `Support` and `Beam`
  classes: construction, mutators (`add_loads`, `remove_loads`,
  `add_supports`, `remove_supports`, `add_query_points`,
  `remove_query_points`), the determinacy check and the equilibrium
  equation assembly of `analyse`, and `get_reaction`.

Conventions used throughout:

* Python floats and sympy numbers are embedded as `ℚ`.  Where the source
  evaluates `cos(radians(angle))` / `sin(radians(angle))` (possibly through
  `.evalf(k)`), the embedding takes the two resulting numbers `cosA`/`sinA`
  as explicit `ℚ` parameters, because the source uses the angle only
  through those two values.
* A raised Python exception is embedded as `PyErr` (returned through
  `Except` or as an `Option PyErr` next to the partially mutated state,
  for methods that mutate before raising).
* Python object identity (the default `==` of classes that do not define
  `__eq__`, which is what `in` and `list.remove` use) is embedded by
  tagging objects with a `ℕ` identity key.
-/

/-- A raised Python exception (only the classes the embedded code raises). -/
inductive PyErr where
  | valueError
  | typeError
  deriving DecidableEq, Repr

/-- Round a rational to the nearest integer, ties to even — the rounding
used by the Python builtin `round`. -/
def roundHalfEven (q : ℚ) : ℤ :=
  let f := ⌊q⌋
  let r := q - f
  if r < 1 / 2 then f
  else if 1 / 2 < r then f + 1
  else if f % 2 = 0 then f else f + 1

/-- The Python `round(q, nd)` on an exact rational value. -/
def pyRound (nd : ℕ) (q : ℚ) : ℚ :=
  (roundHalfEven (q * 10 ^ nd) : ℚ) / 10 ^ nd

/-- One scaled Macaulay-bracket term `c · SingularityFunction(x, a, n)`.
A sympy load expression built from such terms is embedded as a
`List SFTerm`, standing for the sum of its entries; the sympy value `0`
is the empty list. -/
structure SFTerm where
  c : ℚ
  a : ℚ
  n : ℤ
  deriving DecidableEq, Repr

/-- Multiply a singularity-function sum by a scalar (sympy `k * expr`). -/
def sfScale (k : ℚ) (l : List SFTerm) : List SFTerm :=
  l.map fun t => ⟨k * t.c, t.a, t.n⟩

/-- sympy `integrate` on one singularity term:
`∫ SF(x,a,n) dx = SF(x,a,n+1)/(n+1)` for `n ≥ 0` and `SF(x,a,n+1)` for
`n < 0`. -/
def sfIntegrateTerm (t : SFTerm) : SFTerm :=
  if 0 ≤ t.n then ⟨t.c / ((t.n : ℚ) + 1), t.a, t.n + 1⟩
  else ⟨t.c, t.a, t.n + 1⟩

/-- sympy `integrate(expr, x)` on a singularity-function sum. -/
def sfIntegrate (l : List SFTerm) : List SFTerm :=
  l.map sfIntegrateTerm

/-- `∫ x in 0..L, c · SF(x,a,n) · x dx` as sympy computes it inside
`Beam.analyse` (`integrate(load._y * x, (x, x0, x1))` with `x0 = 0`,
`x1 = L`): a term of order `-1` is a point effect of weight `c` at `a`
and contributes `c·a`; a term of order `n ≥ 0` contributes
`∫ x in a..L, c (x-a)^n x dx`.  Positions outside `[0, L]` contribute
nothing (loads are validated onto the beam before analysis). -/
def sfMomentAboutZero (L : ℚ) (t : SFTerm) : ℚ :=
  if 0 ≤ t.a ∧ t.a ≤ L then
    if t.n = -1 then t.c * t.a
    else if 0 ≤ t.n then
      t.c * ((L - t.a) ^ (t.n.toNat + 2) / (t.n.toNat + 2)
        + t.a * (L - t.a) ^ (t.n.toNat + 1) / (t.n.toNat + 1))
    else 0
  else 0

/-- `∫ x in 0..L, c · SF(x,a,n) dx`: the total (resultant) force of a
singularity term over the beam `[0, L]`. -/
def sfTotalForce (L : ℚ) (t : SFTerm) : ℚ :=
  if 0 ≤ t.a ∧ t.a ≤ L then
    if t.n = -1 then t.c
    else if 0 ≤ t.n then t.c * (L - t.a) ^ (t.n.toNat + 1) / (t.n.toNat + 1)
    else 0
  else 0

/-- Sum of `sfTotalForce` over a singularity-function sum. -/
def sfTotalForceSum (L : ℚ) (l : List SFTerm) : ℚ :=
  (l.map (sfTotalForce L)).sum

/-- A polynomial in the beam coordinate `x`, as its coefficient list
(`p.get i` is the coefficient of `x^i`).  This embeds the sympy
polynomial expressions handed to `DistributedLoad`. -/
def QPoly : Type := List ℚ

instance : DecidableEq QPoly := by
  unfold QPoly
  infer_instance

/-- Evaluate a polynomial at a point (Horner form). -/
def polyEval (p : QPoly) (t : ℚ) : ℚ :=
  p.foldr (fun c acc => c + t * acc) 0

/-- sympy `k * f` on a polynomial. -/
def polyScale (k : ℚ) (p : QPoly) : QPoly :=
  p.map (k * ·)

/-- sympy `f * x` on a polynomial: shift all coefficients up one degree. -/
def polyMulX (p : QPoly) : QPoly :=
  0 :: p

/-- sympy `integrate(f, x)` on a polynomial (antiderivative with zero
constant term). -/
def polyIntegrate (p : QPoly) : QPoly :=
  0 :: go p 1
where
  /-- Divide each coefficient by its new degree. -/
  go : List ℚ → ℕ → List ℚ
  | [], _ => []
  | c :: cs, k => c / k :: go cs (k + 1)

/-- sympy `integrate(f, (x, a, b))`: the definite integral of a
polynomial. -/
def polyDefInt (a b : ℚ) (p : QPoly) : ℚ :=
  polyEval (polyIntegrate p) b - polyEval (polyIntegrate p) a

/-! ## Modelled validators

`data_validation.py` is imported by both source modules but is not part of
the sources provided; its four assertion helpers are modelled from the
spec here.  Each raises a `ValueError` on invalid input and returns
nothing otherwise, so each is embedded as a decidable failure
condition. -/

/-- Modelled from the spec: `assert_positive_number(v, name)` from the
missing `data_validation.py` accepts any number `v ≥ 0` and raises a
`ValueError` otherwise (the spec section on validation errors: construction
time, non-numeric or out-of-range input such as a negative coordinate;
`Support(0, ...)` and `span start = 0` are accepted by the source, so
zero is allowed). -/
def assertPositiveFails (v : ℚ) : Bool :=
  v < 0

/-- Modelled from the spec: `assert_strictly_positive_number(v, name)`
accepts any number `v > 0` and raises a `ValueError` otherwise (the
spec lists zero/negative span and span end below span start as validation
errors). -/
def assertStrictlyPositiveFails (v : ℚ) : Bool :=
  v ≤ 0

/-! `assert_number` always succeeds on a `ℚ` input and `assert_length`
always succeeds on a pair, so neither needs an embedded failure case. -/

/-! ## `src/indeterminatebeam/loading.py`

Loads built from `SingularityFunction` terms.  `Load._add_load_functions`
(lines 17-38) projects a non-directional expression onto the axial and
transverse channels with `cos(radians(angle))` / `sin(radians(angle))`
and integrates each once.  The two trigonometric values are the
parameters `cosA` and `sinA` below. -/

/-- The function attributes a `loading.py` load object carries after
`Load._add_load_functions` ran, together with the moment `_m0` each
concrete class assigns: `x0`/`y0` are the axial/transverse load
intensities `w_x`/`w_y`, `x1`/`y1` their sympy antiderivatives (normal
force / shear force), and `m0` the moment of the load about `x = 0`. -/
structure LoadFns where
  x0 : List SFTerm
  y0 : List SFTerm
  x1 : List SFTerm
  y1 : List SFTerm
  m0 : ℚ
  deriving DecidableEq, Repr

/-- `Load._add_load_functions(angle, expr)` (loading.py lines 17-38) for
an `expr` that is a singularity-function sum:
`force_x = cos(radians(angle))`, `force_y = sin(radians(angle))`;
each channel is `force_* * expr` when `abs(round(force_*, 8)) > 0` and
the number `0` (the empty sum) otherwise; then `_x1 = integrate(_x0, x)`
and `_y1 = integrate(_y0, x)`. -/
def addLoadFunctionsSF (cosA sinA : ℚ) (expr : List SFTerm) :
    List SFTerm × List SFTerm × List SFTerm × List SFTerm :=
  let x0 := if 0 < |pyRound 8 cosA| then sfScale cosA expr else []
  let y0 := if 0 < |pyRound 8 sinA| then sfScale sinA expr else []
  (x0, y0, sfIntegrate x0, sfIntegrate y0)

/-- `UDL.__init__(force, span, angle)` (loading.py lines 148-185) with
`span = (a, b)` and the angle given through `cosA`/`sinA`.
Validations: `assert_positive_number(span[0])` and
`assert_strictly_positive_number(span[1]-span[0])`; then
`expr = force * (SF(x, a, 0) - SF(x, b, 0))`, the channel functions, and
`_m0 = force * length * (xa + length/2) * force_y` with
`xa = a`, `length = b - a`, `force_y = sinA`. -/
def udlInit (force a b cosA sinA : ℚ) : Except PyErr LoadFns :=
  if assertPositiveFails a then .error .valueError
  else if assertStrictlyPositiveFails (b - a) then .error .valueError
  else
    let expr : List SFTerm := [⟨force, a, 0⟩, ⟨-force, b, 0⟩]
    let fns := addLoadFunctionsSF cosA sinA expr
    let length := b - a
    .ok ⟨fns.1, fns.2.1, fns.2.2.1, fns.2.2.2,
         force * length * (a + length / 2) * sinA⟩

/-- `TrapezoidalLoad.__init__(force, span, angle)` (loading.py lines
210-271) with `force = (fa, fb)`, `span = (a, b)` and the angle given
through `cosA`/`sinA`.  After the same span validations, the load is a
UDL component `fa * (SF(x,a,0) - SF(x,b,0))` plus, when `fa ≠ fb`, a
triangular component
`slope·SF(x,a,1) - Δ·SF(x,b,0) - slope·SF(x,b,1)` with `Δ = fb - fa`
and `slope = Δ/(b-a)` (the `fa = fb` case takes the `else` branch with
triangular component `0`, avoiding the slope division);
`expr = triangular_component + UDL_component`, and
`_m0 = (UDL_m0 + triangle_m0) * force_y` with
`UDL_m0 = fa·length·(xa + length/2)` and
`triangle_m0 = (Δ·length/2)·(xa + length·2/3)`. -/
def trapInit (fa fb a b cosA sinA : ℚ) : Except PyErr LoadFns :=
  if assertPositiveFails a then .error .valueError
  else if assertStrictlyPositiveFails (b - a) then .error .valueError
  else
    let d := fb - fa
    let udlComponent : List SFTerm := [⟨fa, a, 0⟩, ⟨-fa, b, 0⟩]
    let triangularComponent : List SFTerm :=
      if fa ≠ fb then
        [⟨d / (b - a), a, 1⟩, ⟨-d, b, 0⟩, ⟨-(d / (b - a)), b, 1⟩]
      else []
    let expr := triangularComponent ++ udlComponent
    let fns := addLoadFunctionsSF cosA sinA expr
    let length := b - a
    let udlM0 := fa * length * (a + length / 2)
    let triangleM0 := d * length / 2 * (a + length * 2 / 3)
    .ok ⟨fns.1, fns.2.1, fns.2.2.1, fns.2.2.2, (udlM0 + triangleM0) * sinA⟩

/-- The attributes of a `loading.py` `DistributedLoad` object that the
claims use: its transverse intensity `_y0` (a polynomial) and its moment
`_m0` about `x = 0`. -/
structure DistLoadFns where
  y0 : QPoly
  m0 : ℚ
  deriving DecidableEq

/-- `DistributedLoad.__init__(expr, span, angle)` (loading.py lines
297-324) for a polynomial `expr = f` and `span = (a, b)`:
after the span validations, `_add_load_functions` sets
`_y0 = sin(radians(angle)) * f` when `abs(round(sinA, 8)) > 0` and `0`
otherwise (the expression is NOT clipped to the span), and then
`_m0 = integrate(self._y0 * x, (x, 0, span[1]))` — a definite integral
taken from `0`, not from `span[0]`. -/
def distributedLoadInit (f : QPoly) (a b cosA sinA : ℚ) :
    Except PyErr DistLoadFns :=
  if assertPositiveFails a then .error .valueError
  else if assertStrictlyPositiveFails (b - a) then .error .valueError
  else
    let y0 : QPoly := if 0 < |pyRound 8 sinA| then polyScale sinA f else []
    let _x0 : QPoly := if 0 < |pyRound 8 cosA| then polyScale cosA f else []
    .ok ⟨y0, polyDefInt 0 b (polyMulX y0)⟩

/-! ## `src/indeterminatebeam/indeterminatebeam.py`: `Support` -/

/-- The stiffness of one support channel: `none` embeds the sympy `oo`
(a completely fixed conventional support), `some k` a finite value
(`0` = free, `k > 0` = spring). -/
abbrev Stiff := Option ℚ

/-- Python truthiness / `!= 0` of a stiffness value (`bool(oo) = True`,
`oo != 0` is `True`). -/
def stiffNonzero : Stiff → Bool
  | none => true
  | some v => v ≠ 0

/-- The state of a `Support` object: its position and the three channel
stiffnesses `(x, y, m)` (`_position` and `_stiffness`; the derived
`_DOF` and `_fixed` lists are recomputable from `_stiffness` and are not
stored separately). -/
structure SupportState where
  position : ℚ
  s0 : Stiff
  s1 : Stiff
  s2 : Stiff
  deriving DecidableEq, Repr

/-- Python truthiness of the optional `kx`/`ky` argument: `None` and `0`
are falsy, any other number is truthy. -/
def optTruthy : Option ℚ → Bool
  | none => false
  | some v => v ≠ 0

/-- `Support.__init__(coord, fixed, kx, ky)` (indeterminatebeam.py lines
74-130).  In source order:
`assert_positive_number(coord)`; `if kx: assert_positive_number(kx)`
(so `kx = 0` is falsy and skips both the validation and the later
override); same for `ky`; each entry of `fixed` must be `0` or `1`
(`ValueError` otherwise); `len(fixed)` must be `3` (`ValueError`);
`_stiffness = [oo if a else 0 for a in fixed]`, then `kx`/`ky`
override entries 0/1 when truthy. -/
def supportInit (coord : ℚ) (fixed : List ℚ) (kx ky : Option ℚ) :
    Except PyErr SupportState :=
  if assertPositiveFails coord then .error .valueError
  else if optTruthy kx ∧ assertPositiveFails (kx.getD 0) then .error .valueError
  else if optTruthy ky ∧ assertPositiveFails (ky.getD 0) then .error .valueError
  else if fixed.any (fun a => a ≠ 0 ∧ a ≠ 1) then .error .valueError
  else
    match fixed with
    | [f0, f1, f2] =>
        let base : ℚ → Stiff := fun a => if a = 0 then some 0 else none
        let s0 := if optTruthy kx then some (kx.getD 0) else base f0
        let s1 := if optTruthy ky then some (ky.getD 0) else base f1
        .ok ⟨coord, s0, s1, base f2⟩
    | _ => .error .valueError

/-! ## `src/indeterminatebeam/indeterminatebeam.py`: load classes

The load classes of this module are plain classes (their docstrings still
call them tuples, but they no longer are): they define `__init__` only,
so they support neither iteration nor subscripting, and `==` on them is
object identity.  Only `PointTorque` and `PointLoad` (with its `V`/`H`
shortcuts) can be instantiated at all — the `DistributedLoad`, `UDL` and
`TrapezoidalLoad` constructors in this module contain syntax errors
(missing commas on lines 259, 292 and 327), so no object of those
classes can exist. -/

/-- The class of an instantiable `indeterminatebeam.py` load object. -/
inductive ILoadKind where
  | pointLoad
  | pointTorque
  deriving DecidableEq, Repr

/-- An `indeterminatebeam.py` load object: its class and its `_x`/`_y`
singularity-function attributes. -/
structure ILoad where
  kind : ILoadKind
  x : List SFTerm
  y : List SFTerm
  deriving DecidableEq, Repr

/-- `PointLoad.__init__(force, coord, angle)` (indeterminatebeam.py
lines 196-212) with `cosA8`/`sinA8` the values of
`cos(radians(angle)).evalf(8)` / `sin(radians(angle)).evalf(8)`:
`assert_positive_number(coord)`; `force_x = force * cosA8`,
`force_y = force * sinA8`; each channel is
`force_* * SingularityFunction(x, coord, -1)` when
`abs(round(force_*, 5)) > 0` and `0` otherwise. -/
def iPointLoadInit (force coord cosA8 sinA8 : ℚ) : Except PyErr ILoad :=
  if assertPositiveFails coord then .error .valueError
  else
    let forceX := force * cosA8
    let forceY := force * sinA8
    .ok ⟨.pointLoad,
         if 0 < |pyRound 5 forceX| then [⟨forceX, coord, -1⟩] else [],
         if 0 < |pyRound 5 forceY| then [⟨forceY, coord, -1⟩] else []⟩

/-- `PointTorque.__init__(torque, coord)` (indeterminatebeam.py lines
163-168): `assert_positive_number(coord)`; `_x = 0` and
`_y = torque * SingularityFunction(x, coord, -1)` (sympy collapses the
product to `0` when `torque = 0`). -/
def iPointTorqueInit (torque coord : ℚ) : Except PyErr ILoad :=
  if assertPositiveFails coord then .error .valueError
  else
    .ok ⟨.pointTorque, [], if torque = 0 then [] else [⟨torque, coord, -1⟩]⟩

/-! ## `Beam`: state and mutators

`Beam` objects own lists of load and support objects.  Because the load
and support classes define no `__eq__`, the `in` and `list.remove`
operations used by the removal methods compare by object identity; a
beam-owned or argument object is therefore embedded as a pair
`(identity key, state)`. -/

/-- A load object reference: identity key plus object state. -/
abbrev LoadObj := ℕ × ILoad

/-- A support object reference: identity key plus object state. -/
abbrev SupportObj := ℕ × SupportState

/-- The mutable state of a `Beam` object (`Beam.__init__`,
indeterminatebeam.py lines 417-460): span `[x0, x1]`, section properties,
the `_loads`, `_supports` and `_query` lists, and the `_reactions`
dictionary (embedded as an association list with distinct keys, mapping a
support position to its solved `(x, y, m)` reaction triple).  The
`_distributed_forces_x/_y` caches and the result-function attributes are
not needed by any claim and are omitted. -/
structure BeamState where
  x0 : ℚ
  x1 : ℚ
  loads : List LoadObj
  supports : List SupportObj
  reactions : List (ℚ × (ℚ × ℚ × ℚ))
  query : List ℚ
  E : ℚ
  I : ℚ
  A : ℚ
  deriving DecidableEq, Repr

/-- `Beam.__init__(span, E, I, A)` (indeterminatebeam.py lines 417-460):
all four arguments are validated with `assert_strictly_positive_number`;
`_x0 = 0`, `_x1 = span`, and all collections start empty. -/
def beamInit (span e i a : ℚ) : Except PyErr BeamState :=
  if assertStrictlyPositiveFails span then .error .valueError
  else if assertStrictlyPositiveFails e then .error .valueError
  else if assertStrictlyPositiveFails i then .error .valueError
  else if assertStrictlyPositiveFails a then .error .valueError
  else .ok ⟨0, span, [], [], [], [], e, i, a⟩

/-- `Beam.add_loads(*loads)` (indeterminatebeam.py lines 462-494).  For
each load the method branches on `isinstance`:

* `DistributedLoad`/`UDL`/`TrapezoidalLoad` arguments cannot exist (their
  constructors contain syntax errors), so that branch is dead;
* a `PointTorque` or `PointLoad` argument reaches
  `coordinate = load[1]`, which raises `TypeError` — these classes define
  no `__getitem__` (they are ordinary classes, not the namedtuples their
  docstrings still describe), so the load is never validated against the
  span and never appended.

The loop therefore raises `TypeError` on the first load and leaves the
beam unchanged; an empty call returns normally. -/
def addLoads (b : BeamState) : List LoadObj → BeamState × Option PyErr
  | [] => (b, none)
  | _ :: _ => (b, some .typeError)

/-- Remove the first element with the given identity key
(CPython `list.remove(obj)` under default identity `==`). -/
def eraseFirstId {α : Type} (i : ℕ) : List (ℕ × α) → List (ℕ × α)
  | [] => []
  | p :: ps => if p.1 = i then ps else p :: eraseFirstId i ps

/-- `Beam.remove_loads(*loads, remove_all=False)` (indeterminatebeam.py
lines 497-527): with `remove_all` the load list is reset; otherwise each
argument is removed via `if load in self._loads: self._loads.remove(load)`
— both operations compare by object identity.  The method never
raises (a load that is not on the beam is skipped silently). -/
def removeLoads (b : BeamState) (loads : List LoadObj) (removeAll : Bool) :
    BeamState :=
  if removeAll then { b with loads := [] }
  else
    loads.foldl
      (fun st l =>
        if st.loads.any (fun p => p.1 = l.1) then
          { st with loads := eraseFirstId l.1 st.loads }
        else st)
      b

/-- `Beam.add_supports(*supports)` (indeterminatebeam.py lines 529-560).
For each argument (the `isinstance(support, Support)` check always
passes in this typed embedding): raise `ValueError` when the position is
outside `[x0, x1]`; append when the support list is empty or when no
existing support has the same position; raise `ValueError` otherwise.
Supports appended before a failing argument stay on the beam. -/
def addSupports (b : BeamState) : List SupportObj → BeamState × Option PyErr
  | [] => (b, none)
  | s :: rest =>
    if b.x0 > s.2.position ∨ s.2.position > b.x1 then (b, some .valueError)
    else if b.supports = [] then
      addSupports { b with supports := b.supports ++ [s] } rest
    else if s.2.position ∈ b.supports.map (fun p => p.2.position) then
      (b, some .valueError)
    else addSupports { b with supports := b.supports ++ [s] } rest

/-- The loop of `Beam.remove_supports` (indeterminatebeam.py lines
579-581): `for support in self._supports: if support in supports:
self._supports.remove(support)`.  The CPython list iterator advances by
index while `remove` shifts the remaining elements left, so the element
directly after a removed one is skipped; the recursion below reproduces
that index behaviour.  Membership and removal compare by object
identity. -/
def removeSupportsAux (rem : List SupportObj) (l : List SupportObj) (i : ℕ) :
    List SupportObj :=
  if h : i < l.length then
    let s := l.get ⟨i, h⟩
    if rem.any (fun r => r.1 = s.1) then
      removeSupportsAux rem (eraseFirstId s.1 l) (i + 1)
    else
      removeSupportsAux rem l (i + 1)
  else l
termination_by l.length - i
decreasing_by
  · have hlen : ∀ (m : List SupportObj),
        (eraseFirstId (l.get ⟨i, h⟩).1 m).length ≤ m.length := by
      intro m
      induction m with
      | nil => simp [eraseFirstId]
      | cons p ps ih =>
          by_cases hp : p.1 = (l.get ⟨i, h⟩).1
          · simp [eraseFirstId, hp]
          · simp only [eraseFirstId, hp, if_false, List.length_cons]
            omega
    have := hlen l
    omega
  · omega

/-- `Beam.remove_supports(*supports, remove_all=False)`
(indeterminatebeam.py lines 562-587).  The method never raises (a
support that is not on the beam is skipped silently). -/
def removeSupports (b : BeamState) (sups : List SupportObj)
    (removeAll : Bool) : BeamState :=
  if removeAll then { b with supports := [] }
  else { b with supports := removeSupportsAux sups b.supports 0 }

/-! ## `Beam`: query points and reaction queries -/

/-- The `ValueError` object that `add_query_points` and
`remove_query_points` build and RETURN (they do not raise it). -/
inductive ValueErrorObj where
  | mk
  deriving DecidableEq, Repr

/-- `Beam.add_query_points(*x_coords)` (indeterminatebeam.py lines
1223-1237): each coordinate inside `[x0, x1]` is appended to `_query`
(unconditionally, so duplicates accumulate); the first coordinate
outside the span makes the method RETURN a `ValueError` object — nothing
is raised, the offending coordinate is not appended, and the remaining
coordinates are silently skipped.  The result below is the final state
together with the returned value (`none` embeds the Python implicit
`return None`). -/
def addQueryPoints (b : BeamState) :
    List ℚ → BeamState × Option ValueErrorObj
  | [] => (b, none)
  | c :: rest =>
    if b.x0 ≤ c ∧ c ≤ b.x1 then
      addQueryPoints { b with query := b.query ++ [c] } rest
    else (b, some .mk)

/-- `Beam.remove_query_points(*x_coords, remove_all=False)`
(indeterminatebeam.py lines 1239-1259): with `remove_all` the query list
is reset; otherwise each coordinate present in `_query` is removed
(first occurrence, value equality — the list holds numbers); the first
coordinate NOT present makes the method return a `ValueError` object,
skipping the remaining coordinates.  Nothing is ever raised. -/
def removeQueryPoints (b : BeamState) (coords : List ℚ)
    (removeAll : Bool) : BeamState × Option ValueErrorObj :=
  if removeAll then ({ b with query := [] }, none)
  else go b coords
where
  /-- The `for x_coord in x_coords` loop body. -/
  go : BeamState → List ℚ → BeamState × Option ValueErrorObj
  | st, [] => (st, none)
  | st, c :: rest =>
    if c ∈ st.query then go { st with query := st.query.erase c } rest
    else (st, some .mk)

/-- `Beam.get_reaction(x_coord, direction=None)` (indeterminatebeam.py
lines 910-955) with the default `direction`: after an (output-only)
warning when `_reactions` is empty, `assert_positive_number(x_coord)`
raises on a negative coordinate; a coordinate that is not a key of
`_reactions` returns `None`; otherwise the stored `[x, y, m]` triple is
returned. -/
def getReaction (b : BeamState) (xc : ℚ) :
    Except PyErr (Option (ℚ × ℚ × ℚ)) :=
  if assertPositiveFails xc then .error .valueError
  else
    match b.reactions.find? (fun p => p.1 = xc) with
    | some p => .ok (some p.2)
    | none => .ok none

/-! ## `Beam.analyse`: determinacy check and equation assembly

`analyse` (indeterminatebeam.py lines 640-907) first builds the
dictionaries `unknowns_x`, `unknowns_y`, `unknowns_m`, keyed by support
position, holding a reaction symbol for every support whose
corresponding `_stiffness` entry is `!= 0`; it then raises `ValueError`
when there is less than one axial unknown or less than two
transverse-plus-moment unknowns (lines 670-678) — both checks run before
any equation is assembled or solved.  In this snapshot, execution past
the checks always fails: the expressions `N_i`, `Nv_EA`, `F_i`, `M_i`,
`dv_EI` and `v_EI` call the generator methods `_point_loads_x`,
`_point_loads_y` and `_point_torques`, which are commented out (lines
2075-2126), so `analyse` raises `AttributeError` before `linsolve` and
never reaches the `self._reactions` assignment on line 868. -/

/-- The key set of one of the `unknowns_*` dictionaries: the distinct
positions of supports whose given channel stiffness is `!= 0`. -/
def unknownPositions (chan : SupportState → Stiff)
    (sups : List SupportState) : List ℚ :=
  ((sups.filter (fun s => stiffNonzero (chan s))).map
    (fun s => s.position)).dedup

/-- The determinacy check of `analyse` (lines 670-678): `ValueError`
when `len(unknowns_x) < 1`, then `ValueError` when
`len(unknowns_y) + len(unknowns_m) < 2`, else no error. -/
def determinacyCheck (sups : List SupportState) : Option PyErr :=
  if (unknownPositions (fun s => s.s0) sups).length < 1 then
    some .valueError
  else if (unknownPositions (fun s => s.s1) sups).length
      + (unknownPositions (fun s => s.s2) sups).length < 2 then
    some .valueError
  else none

/-- Line 689 of `analyse`, the load part of the transverse-equilibrium
expression `F_Ry`: `sum([load._x for load in self._loads]) + ...` — note
the source sums the `_x` (axial) attribute of every load here, not `_y`.
The reaction part of `F_Ry` is the sum of the `unknowns_y` symbols and
is kept separately (`unknownPositions (·.s1)`). -/
def fRyLoadTerms (loads : List ILoad) : List SFTerm :=
  (loads.map (fun l => l.x)).flatten

/-- The sum of the transverse (`_y`) attributes of the loads — what a
transverse equilibrium over the applied loads would sum. -/
def transverseLoadTerms (loads : List ILoad) : List SFTerm :=
  (loads.map (fun l => l.y)).flatten

/-- Lines 692-694 of `analyse`, the load part of the moment-equilibrium
expression `M_R`:
`sum(integrate(load._y * x, (x, x0, x1)) for load in self._loads)`.
The only other addend of `M_R` is the sum of the `unknowns_m` symbols
(`unknownPositions (·.s2)`); the moments of the transverse reaction
unknowns are absent from the source expression. -/
def mRLoadPart (L : ℚ) (loads : List ILoad) : ℚ :=
  (loads.map (fun l => (l.y.map (sfMomentAboutZero L)).sum)).sum

/-! ## Concrete objects used by the claim theorems -/

/-- `cos(radians(90)).evalf(8)`: `radians(90)` is the Python float
`1.5707963267948966`, whose cosine is `6.123233995736766e-17`;
`evalf(8)` keeps 8 significant digits.  (Only the facts that this value
is tiny and rounds to `0` at 5 decimals matter below.) -/
def c90e8 : ℚ := 61232340 / 10 ^ 24

/-- `cos(radians(90))` as evaluated by sympy at float precision
(`6.123233995736766e-17`), used by `loading.py` which applies no
`evalf`.  (Only the fact that it rounds to `0` at 8 decimals matters
below.) -/
def c90f : ℚ := 6123233995736766 / 10 ^ 31

/-- `Support(0, (1, 1, 0))`: the pin of the simply-supported scenario. -/
def pin0 : SupportState := ⟨0, none, none, some 0⟩

/-- `Support(5, (0, 1, 0))`: the roller of the simply-supported
scenario. -/
def roller5 : SupportState := ⟨5, some 0, none, some 0⟩

/-- `PointLoad(-10, 2.5, 90)` as built by `indeterminatebeam.py`:
`force_x = -10 · cos(radians(90)).evalf(8)` rounds to `0` at 5 decimals,
so `_x = 0`; `_y = -10 · SF(x, 2.5, -1)` (since
`sin(radians(90)).evalf(8) = 1.0`). -/
def plV : ILoad := ⟨.pointLoad, [], [⟨-10, 5 / 2, -1⟩]⟩

/-- `PointLoad(10, 2, 0)` as built by `indeterminatebeam.py`: a purely
axial load, `_x = 10 · SF(x, 2, -1)` and `_y = 0`
(`cos(radians(0)) = 1`, `sin(radians(0)) = 0`). -/
def plH : ILoad := ⟨.pointLoad, [⟨10, 2, -1⟩], []⟩

/-- `PointTorque(30, 4)` as built by `indeterminatebeam.py`. -/
def torque30 : ILoad := ⟨.pointTorque, [], [⟨30, 4, -1⟩]⟩

/-- `Beam(5)` (with the default section properties) directly after
construction. -/
def beam5 : BeamState :=
  ⟨0, 5, [], [], [], [], 200000, 9050000, 2300⟩

/-- A `Beam(5)` state carrying one load, the pin/roller supports and a
populated reaction map `{0: [0, 5, 0], 5: [0, 5, 0]}` — the state the
spec expects after a successful `analyse()` of the simply-supported
scenario. -/
def beamAnalysed : BeamState :=
  ⟨0, 5, [(0, torque30)], [(1, pin0), (2, roller5)],
   [(0, (0, 5, 0)), (5, (0, 5, 0))], [], 200000, 9050000, 2300⟩

/-- The distributed-load expression `f(x) = x`. -/
def xQPoly : QPoly := [0, 1]

/-! # Theorems

One theorem per claim of the specification review, preceded by helper
lemmas shared between proofs.  Claim theorems are self-contained: no
claim theorem is used in the proof of another. -/

/-- Helper (C3): `add_supports` never writes the `_reactions`
attribute. -/
theorem addSupports_reactions (ss : List SupportObj) :
    ∀ b : BeamState, (addSupports b ss).1.reactions = b.reactions := by
  induction ss with
  | nil => intro b; rfl
  | cons s rest ih =>
      intro b
      simp only [addSupports]
      split
      · rfl
      · split
        · exact ih _
        · split
          · rfl
          · exact ih _

/-- Helper (C3): `remove_loads` never writes the `_reactions`
attribute. -/
theorem removeLoads_reactions (ls : List LoadObj) :
    ∀ (b : BeamState) (flag : Bool),
      (removeLoads b ls flag).reactions = b.reactions := by
  induction ls with
  | nil => intro b flag; cases flag <;> rfl
  | cons l rest ih =>
      intro b flag
      cases flag
      · simp only [removeLoads, if_false, List.foldl_cons, Bool.false_eq_true]
        have := ih (if b.loads.any (fun p => p.1 = l.1) then
          { b with loads := eraseFirstId l.1 b.loads } else b) false
        simp only [removeLoads, if_false, Bool.false_eq_true] at this
        rw [this]
        split <;> rfl
      · rfl

/-- Helper (C3): `remove_supports` never writes the `_reactions`
attribute. -/
theorem removeSupports_reactions (b : BeamState) (ss : List SupportObj)
    (flag : Bool) : (removeSupports b ss flag).reactions = b.reactions := by
  cases flag <;> simp [removeSupports]

/-- Helper (C8): the `remove_supports` loop leaves the support list
unchanged when no argument matches any beam support by identity. -/
theorem removeSupportsAux_fresh (ss : List SupportObj) (l : List SupportObj)
    (h : ∀ s ∈ ss, ∀ p ∈ l, s.1 ≠ p.1) :
    ∀ i, removeSupportsAux ss l i = l := by
  have key : ∀ (k i : ℕ), l.length - i ≤ k → removeSupportsAux ss l i = l := by
    intro k
    induction k with
    | zero =>
        intro i h0
        rw [removeSupportsAux]
        have hni : ¬ i < l.length := by omega
        simp [hni]
    | succ k ih =>
        intro i hk
        rw [removeSupportsAux]
        by_cases hi : i < l.length
        · have hmem : l.get ⟨i, hi⟩ ∈ l := l.get_mem _ _
          have hany : ss.any (fun r => r.1 = (l.get ⟨i, hi⟩).1) = false := by
            simp only [List.any_eq_false, decide_eq_true_eq]
            intro s hs
            exact h s hs _ hmem
          simp only [hi, dif_pos, hany, Bool.false_eq_true, if_false]
          exact ih (i + 1) (by omega)
        · simp [hi]
  exact fun i => key (l.length - i) i (le_refl _)

/-- Helper (C8): `remove_loads` leaves the load list unchanged when no
argument matches any beam load by identity. -/
theorem removeLoads_fresh (b : BeamState) (ls : List LoadObj)
    (h : ∀ l ∈ ls, ∀ p ∈ b.loads, l.1 ≠ p.1) :
    removeLoads b ls false = b := by
  induction ls with
  | nil => rfl
  | cons l rest ih =>
      have hany : b.loads.any (fun p => p.1 = l.1) = false := by
        simp only [List.any_eq_false, decide_eq_true_eq]
        intro p hp
        exact fun hpl => h l (List.mem_cons_self l rest) p hp hpl.symm
      simp only [removeLoads, if_false, List.foldl_cons, Bool.false_eq_true,
        hany] at ih ⊢
      exact ih fun l2 h2 p hp => h l2 (List.mem_cons_of_mem l h2) p hp

/-- C1: the transverse-equilibrium expression `F_Ry` assembled by
`analyse` (line 689) sums the `_x` (axial) attribute of every applied
load, not the transverse `_y` attribute the claim describes.  Witnessed
at the purely axial load `PointLoad(10, 2, 0)` on the default `Beam(10)`
span: the load part of `F_Ry` is the full axial term `10·SF(x, 2, -1)`
of resultant `10`, while the transverse components of the applied loads
sum to `0` — so the assembled transverse equilibrium differs from the
claimed one by `10 kN` at this input. -/
theorem transverseEquilibrium_assembled_from_axial_terms :
    iPointLoadInit 10 2 1 0 = .ok plH
    ∧ fRyLoadTerms [plH] = [⟨10, 2, -1⟩]
    ∧ transverseLoadTerms [plH] = []
    ∧ sfTotalForceSum 10 (fRyLoadTerms [plH]) = 10
    ∧ sfTotalForceSum 10 (transverseLoadTerms [plH]) = 0 := by
  refine ⟨?_, rfl, rfl, ?_, ?_⟩
  · norm_num [iPointLoadInit, assertPositiveFails, pyRound, roundHalfEven, plH]
  · norm_num [sfTotalForceSum, fRyLoadTerms, plH, sfTotalForce]
  · norm_num [sfTotalForceSum, transverseLoadTerms, plH, sfTotalForce]

/-- C2: for the simply-supported scenario (`Beam(5)`, pin `(1,1,0)` at
`0`, roller `(0,1,0)` at `5`, `PointLoad(-10, 2.5, 90)`), the
moment-equilibrium equation assembled by `analyse` (lines 692-694) is
`sum(integrate(load._y * x)) + sum(unknowns_m) = 0`; it contains no
moment terms for the transverse reaction unknowns, and neither support
has a moment restraint, so the equation reduces to the unsatisfiable
constant `-25 = 0`.  `analyse` therefore cannot produce the claimed
reactions `(0, 5, 0)`/`(0, 5, 0)` or any reactions at all (`linsolve`
on an inconsistent system returns the empty set, and execution in fact
already fails earlier: `add_loads` raises `TypeError` on any
`PointLoad`, and `analyse` calls the commented-out `_point_loads_x`). -/
theorem simplySupported_moment_equation_unsatisfiable :
    supportInit 0 [1, 1, 0] none none = .ok pin0
    ∧ supportInit 5 [0, 1, 0] none none = .ok roller5
    ∧ iPointLoadInit (-10) (5 / 2) c90e8 1 = .ok plV
    ∧ unknownPositions (fun s => s.s2) [pin0, roller5] = []
    ∧ mRLoadPart 5 [plV] = -25
    ∧ mRLoadPart 5 [plV] ≠ 0 := by
  have h5 : mRLoadPart 5 [plV] = -25 := by
    norm_num [mRLoadPart, plV, sfMomentAboutZero]
  refine ⟨?_, ?_, ?_, ?_, h5, by rw [h5]; norm_num⟩
  · norm_num [supportInit, assertPositiveFails, optTruthy, pin0]
  · norm_num [supportInit, assertPositiveFails, optTruthy, roller5]
  · norm_num [iPointLoadInit, assertPositiveFails, pyRound, roundHalfEven,
      c90e8, plV]
  · norm_num [unknownPositions, pin0, roller5, stiffNonzero, List.filter,
      List.dedup]

/-- C3 (counterexample): mutating the load set after the reaction map is
populated does not invalidate the map.  `beamAnalysed` carries the
reaction map the spec expects for the simply-supported scenario;
removing its load with `remove_loads` succeeds (the load list becomes
empty), yet `get_reaction(0)` on the mutated beam still returns the
stale pre-mutation triple `(0, 5, 0)` — contradicting the claim that a
subsequent query cannot observe stale results. -/
theorem staleReactions_survive_load_removal :
    (removeLoads beamAnalysed [(0, torque30)] false).loads = []
    ∧ beamAnalysed.loads ≠ []
    ∧ getReaction (removeLoads beamAnalysed [(0, torque30)] false) 0
        = .ok (some (0, 5, 0)) := by
  refine ⟨?_, by simp [beamAnalysed], ?_⟩
  · norm_num [removeLoads, beamAnalysed, eraseFirstId, List.any]
  · norm_num [getReaction, removeLoads, beamAnalysed, eraseFirstId,
      assertPositiveFails, List.find?, List.any]

/-- C3 (amended): no beam mutator invalidates the reaction map — none of
`add_loads`, `remove_loads`, `add_supports`, `remove_supports` ever
writes the `_reactions` attribute, so whatever reaction values the beam
holds before a mutation remain observable afterwards until `analyse`
overwrites them. -/
theorem mutators_preserve_reaction_map (b : BeamState) (ls : List LoadObj)
    (ss : List SupportObj) (flag : Bool) :
    (addLoads b ls).1.reactions = b.reactions
    ∧ (removeLoads b ls flag).reactions = b.reactions
    ∧ (addSupports b ss).1.reactions = b.reactions
    ∧ (removeSupports b ss flag).reactions = b.reactions := by
  refine ⟨?_, removeLoads_reactions ls b flag, addSupports_reactions ss b,
    removeSupports_reactions b ss flag⟩
  cases ls <;> rfl

/-- C4: in `loading.py`, `UDL(q, (a, b), angle)` and
`TrapezoidalLoad((q, q), (a, b), angle)` construct exactly the same load
object data: for every magnitude, every valid span `0 ≤ a < b` and every
angle (represented by its projection pair `cA`/`sA`), the two
constructors return equal results — the same intensity functions `_x0`
and `_y0`, the same antiderivatives `_x1` and `_y1`, and the same moment
`_m0` (the equal-end-values trapezoid takes the special-cased branch
with no ramp term, and its triangle moment vanishes). -/
theorem udl_trapezoid_equal_end_values_identical
    (q a b cA sA : ℚ) (h0 : 0 ≤ a) (hab : a < b) :
    udlInit q a b cA sA = trapInit q q a b cA sA := by
  have c1 : ¬ a < 0 := not_lt.mpr h0
  have c2 : ¬ b - a ≤ 0 := not_le.mpr (by linarith)
  simp only [udlInit, trapInit, assertPositiveFails,
    assertStrictlyPositiveFails, c1, c2, decide_eq_true_eq, if_false, ne_eq,
    not_true_eq_false, List.nil_append, ite_self, decide_False]
  simp only [Bool.false_eq_true, if_false, Except.ok.injEq, LoadFns.mk.injEq,
    true_and, and_true]
  ring

/-- Witness for C4 at `q = 2`, span `(1, 4)`, angle `90`. -/
theorem udl_trapezoid_equal_end_values_identical_witness :
    udlInit 2 1 4 0 1 = trapInit 2 2 1 4 0 1 :=
  udl_trapezoid_equal_end_values_identical 2 1 4 0 1 (by norm_num)
    (by norm_num)

/-- C5: the moment `_m0` of a `loading.py` `DistributedLoad` is the
integral of `w_y(x)·x` from `0` to the span end, not over the span
itself.  At `DistributedLoad("x", (1, 2), 90)` the source value is
`∫ x in 0..2, x·x dx = 8/3`, while the integral over the application
span `[1, 2]` of the same transverse intensity — the value the claim
requires — is `7/3`. -/
theorem distributedLoad_m0_integrated_from_zero_not_span_start :
    (distributedLoadInit xQPoly 1 2 c90f 1).map
      (fun d => (d.m0, polyDefInt 1 2 (polyMulX d.y0))) = .ok (8 / 3, 7 / 3)
    ∧ ((8 : ℚ) / 3 ≠ 7 / 3) := by
  constructor
  · norm_num [distributedLoadInit, xQPoly, c90f, assertPositiveFails,
      assertStrictlyPositiveFails, pyRound, roundHalfEven, polyScale,
      polyMulX, polyDefInt, polyIntegrate, polyIntegrate.go, polyEval,
      Except.map]
  · norm_num

/-- C6: `analyse` raises its determinacy `ValueError` exactly when the
supports provide fewer than one restrained axial channel or fewer than
two restrained transverse-plus-rotational channels combined (counting
one channel per support with nonzero stiffness in that direction; the
hypothesis that support positions are pairwise distinct is the invariant
`add_supports` maintains, under which the position-keyed `unknowns_*`
dictionaries have exactly one entry per restrained channel).  The checks
run before any equation is assembled or solved. -/
theorem determinacy_error_iff_insufficient_restraints
    (sups : List SupportState)
    (hpos : sups.Pairwise (fun s t => s.position ≠ t.position)) :
    determinacyCheck sups = some PyErr.valueError ↔
      ((sups.filter (fun s => stiffNonzero s.s0)).length < 1
        ∨ (sups.filter (fun s => stiffNonzero s.s1)).length
            + (sups.filter (fun s => stiffNonzero s.s2)).length < 2) := by
  have hlen : ∀ chan : SupportState → Stiff,
      (unknownPositions chan sups).length
        = (sups.filter (fun s => stiffNonzero (chan s))).length := by
    intro chan
    unfold unknownPositions
    have hnd : ((sups.filter (fun s => stiffNonzero (chan s))).map
        (fun s => s.position)).Nodup := by
      unfold List.Nodup
      exact List.pairwise_map.mpr (hpos.sublist (List.filter_sublist sups))
    rw [hnd.dedup, List.length_map]
  rw [determinacyCheck, hlen, hlen, hlen]
  by_cases c1 : (sups.filter (fun s => stiffNonzero s.s0)).length < 1
  · simp [c1]
  · by_cases c2 : (sups.filter (fun s => stiffNonzero s.s1)).length
        + (sups.filter (fun s => stiffNonzero s.s2)).length < 2
    · simp [c1, c2]
    · simp [c1, c2]

/-- Witness for C6 at the pin/roller support pair: three restrained
channels (one axial, two transverse), so no determinacy error. -/
theorem determinacy_error_iff_insufficient_restraints_witness :
    determinacyCheck [pin0, roller5] = some PyErr.valueError ↔
      (([pin0, roller5].filter (fun s => stiffNonzero s.s0)).length < 1
        ∨ ([pin0, roller5].filter (fun s => stiffNonzero s.s1)).length
            + ([pin0, roller5].filter (fun s => stiffNonzero s.s2)).length
              < 2) :=
  determinacy_error_iff_insufficient_restraints [pin0, roller5]
    (by norm_num [pin0, roller5, List.pairwise_cons])

/-- C7: `add_loads` raises `TypeError` on a `PointLoad` placed strictly
inside the beam span — the method subscripts `load[1]`, but the load
classes are no longer the namedtuples their docstrings describe, so the
in-span load is never appended.  (This contradicts the claim that an
in-span load is appended without error; the claimed error condition —
position outside the span — is never even evaluated for the class.) -/
theorem addLoads_raises_typeError_on_valid_load :
    beamInit 5 200000 9050000 2300 = .ok beam5
    ∧ iPointLoadInit (-10) (5 / 2) c90e8 1 = .ok plV
    ∧ ((0 : ℚ) ≤ 5 / 2 ∧ (5 / 2 : ℚ) ≤ 5)
    ∧ addLoads beam5 [(0, plV)] = (beam5, some PyErr.typeError) := by
  refine ⟨?_, ?_, by norm_num, rfl⟩
  · norm_num [beamInit, assertStrictlyPositiveFails, beam5]
  · norm_num [iPointLoadInit, assertPositiveFails, pyRound, roundHalfEven,
      c90e8, plV]

/-- C8 (counterexample): removal compares by object identity, not value.
The beam `beamAnalysed` owns the load object with identity key `0` and
state `torque30`, and the support object with key `1` and state `pin0`;
passing fresh objects (keys `7` and `3`) with exactly the same
parameters to `remove_loads` / `remove_supports` removes nothing — the
beam is returned unchanged, although the claim says the value-equal
attached objects are removed. -/
theorem valueEqual_object_not_removed :
    removeLoads beamAnalysed [(7, torque30)] false = beamAnalysed
    ∧ removeSupports beamAnalysed [(3, pin0)] false = beamAnalysed
    ∧ beamAnalysed.loads ≠ [] ∧ beamAnalysed.supports ≠ [] := by
  refine ⟨?_, ?_, by simp [beamAnalysed], by simp [beamAnalysed]⟩
  · norm_num [removeLoads, beamAnalysed, List.any]
  · norm_num [removeSupports, beamAnalysed]
    rw [removeSupportsAux]
    norm_num [pin0, roller5]
    rw [removeSupportsAux]
    norm_num
    rw [removeSupportsAux]
    norm_num

/-- C8 (amended): `remove_loads` and `remove_supports` remove by object
identity (the default `==` of classes without `__eq__`): arguments whose
identity keys match no object on the beam — however equal their
parameters — remove nothing, and the calls return normally without
raising (both methods are total). -/
theorem removal_is_by_identity_fresh_ids_noop (b : BeamState)
    (ls : List LoadObj) (ss : List SupportObj)
    (hl : ∀ l ∈ ls, ∀ p ∈ b.loads, l.1 ≠ p.1)
    (hs : ∀ s ∈ ss, ∀ p ∈ b.supports, s.1 ≠ p.1) :
    removeLoads b ls false = b ∧ removeSupports b ss false = b := by
  refine ⟨removeLoads_fresh b ls hl, ?_⟩
  show ({ b with supports := removeSupportsAux ss b.supports 0 } : BeamState)
    = b
  rw [removeSupportsAux_fresh ss b.supports hs 0]

/-- Witness for C8 (amended) at `beamAnalysed` with fresh identity
keys. -/
theorem removal_is_by_identity_fresh_ids_noop_witness :
    removeLoads beamAnalysed [(8, torque30)] false = beamAnalysed
    ∧ removeSupports beamAnalysed [(9, pin0)] false = beamAnalysed :=
  removal_is_by_identity_fresh_ids_noop beamAnalysed [(8, torque30)]
    [(9, pin0)]
    (by
      intro l hl p hp
      simp only [List.mem_singleton] at hl
      simp only [beamAnalysed, List.mem_singleton] at hp
      subst hl
      subst hp
      decide)
    (by
      intro s hs p hp
      simp only [List.mem_singleton] at hs
      simp only [beamAnalysed, List.mem_cons, List.mem_singleton,
        List.not_mem_nil, or_false] at hp
      subst hs
      rcases hp with h | h <;> subst h <;> decide)

/-- C9 (counterexample): a zero stiffness passed as `kx` is silently
ignored, not rejected: `Support(0, (1, 1, 1), kx=0)` constructs
successfully (the `if kx:` guard is falsy at `0`, so neither the
validation nor the stiffness override runs) and the support keeps all
three channels rigid — where the claim requires a validation error. -/
theorem zero_kx_silently_accepted :
    supportInit 0 [1, 1, 1] (some 0) none
      = .ok ⟨0, none, none, none⟩ := by
  norm_num [supportInit, optTruthy, assertPositiveFails]

/-- C9 (amended): `Support` construction fails exactly when the
coordinate is negative, a truthy (nonzero) `kx` or `ky` is negative, a
`fixed` entry is neither `0` nor `1`, or `fixed` does not have length 3;
and a zero `kx` is indistinguishable from an absent one (silently
ignored rather than rejected — the claim holds for every other
malformed channel value, but not for zero spring stiffnesses). -/
theorem supportInit_failure_characterised (coord : ℚ) (fixed : List ℚ)
    (kx ky : Option ℚ) :
    ((∃ e, supportInit coord fixed kx ky = .error e) ↔
      (coord < 0 ∨ (optTruthy kx = true ∧ kx.getD 0 < 0)
        ∨ (optTruthy ky = true ∧ ky.getD 0 < 0)
        ∨ (∃ v ∈ fixed, v ≠ 0 ∧ v ≠ 1) ∨ fixed.length ≠ 3))
    ∧ supportInit coord fixed (some 0) ky
        = supportInit coord fixed none ky := by
  constructor
  · simp only [supportInit, assertPositiveFails]
    by_cases h1 : coord < 0
    · simp [h1]
    · simp only [h1, decide_False, Bool.false_eq_true, if_false]
      by_cases h2 : optTruthy kx = true ∧ kx.getD 0 < 0
      · simp [h2]
      · rw [if_neg (by simpa using h2)]
        by_cases h3 : optTruthy ky = true ∧ ky.getD 0 < 0
        · simp [h2, h3]
        · rw [if_neg (by simpa using h3)]
          by_cases h4 : ∃ v ∈ fixed, v ≠ 0 ∧ v ≠ 1
          · rw [if_pos (by simpa [List.any_eq_true] using h4)]
            simp [h1, h2, h3, h4]
          · rw [if_neg (by simpa [List.any_eq_true] using h4)]
            simp only [h1, h2, h3, h4, false_or]
            rcases fixed with _ | ⟨f0, _ | ⟨f1, _ | ⟨f2, _ | ⟨f3, rest⟩⟩⟩⟩
              <;> simp
  · simp [supportInit, optTruthy]

/-- C10: `add_query_points` processes coordinates left to right,
appending every in-range one (duplicates included); at the first
out-of-range coordinate it stops and RETURNS a `ValueError` object —
nothing is raised, the offending coordinate is not appended and the
remaining coordinates are skipped; and `remove_query_points` behaves the
same way at a coordinate that is not in the query list (returns the
`ValueError` object, removes nothing, skips the rest). -/
theorem queryPoints_invalid_coordinate_returned_value_error
    (b : BeamState) (pre post : List ℚ) (bad : ℚ)
    (hpre : ∀ c ∈ pre, b.x0 ≤ c ∧ c ≤ b.x1)
    (hbad : ¬(b.x0 ≤ bad ∧ bad ≤ b.x1)) :
    addQueryPoints b (pre ++ bad :: post)
      = ({ b with query := b.query ++ pre }, some .mk)
    ∧ ∀ bad2 post2, bad2 ∉ b.query →
        removeQueryPoints b (bad2 :: post2) false = (b, some .mk) := by
  constructor
  · induction pre generalizing b with
    | nil => simp [addQueryPoints, hbad]
    | cons c cs ih =>
        have hc := hpre c (List.mem_cons_self c cs)
        simp only [List.cons_append, addQueryPoints, hc, and_self, if_true,
          if_pos, List.append_eq]
        rw [ih]
        · simp
        · intro d hd
          simpa using hpre d (List.mem_cons_of_mem c hd)
        · simpa using hbad
  · intro bad2 post2 h
    simp [removeQueryPoints, removeQueryPoints.go, h]

/-- Witness for C10 on `Beam(5)`: coordinates `[1, 1, 7, 2]` append the
duplicate `1`s, stop at the out-of-range `7` and skip `2`; removing the
absent coordinate `3` returns the `ValueError` object and changes
nothing. -/
theorem queryPoints_invalid_coordinate_returned_value_error_witness :
    addQueryPoints beam5 ([1, 1] ++ 7 :: [2])
      = ({ beam5 with query := beam5.query ++ [1, 1] }, some .mk)
    ∧ removeQueryPoints beam5 (3 :: []) false = (beam5, some .mk) := by
  have h := queryPoints_invalid_coordinate_returned_value_error beam5 [1, 1]
    [2] 7
    (by
      intro c hc
      simp only [List.mem_cons, List.not_mem_nil, or_false, or_self] at hc
      subst hc
      norm_num [beam5])
    (by norm_num [beam5])
  exact ⟨h.1, h.2 3 [] (by simp [beam5])⟩
